import Mathlib

/-!
Verification of the imguiCef frame hand-off core.

The development embeds, as pure Lean functions, the parts of the program
that the specification's testable properties talk about:

* `CefRenderHandlerImpl` (src/src/cef_client.cpp): a frame buffer store with
  `OnPaint`, `GetTextureData`, `GetViewRect`, `Resize`, `IsDirty`,
  `ClearDirty`.  The pixel buffer is a `List Nat` of bytes; machine `int`
  dimensions are `Nat` (CEF delivers positive dimensions and the sizes in
  play never overflow).
* `CefClientImpl` (same file): the browser-handle lifecycle.
* `Application::UpdateCefTexture` (src/src/cef_app.cpp): the texture upload
  bridge, modelled as a state transformer that also emits the ordered list
  of GPU calls it performs, so that ordering properties (destroy versus
  wait) and failure behaviour are visible.
-/

/-- Frame buffer store state: the fields of `CefRenderHandlerImpl`
(`m_Buffer`, `m_Width`, `m_Height`, `m_IsDirty`).  The mutex only
serialises the operations and has no pure content. -/
structure RenderStore where
  buffer : List Nat
  width : Nat
  height : Nat
  isDirty : Bool
  deriving DecidableEq

/-- Constructor `CefRenderHandlerImpl(width, height)`: stores the
dimensions, marks not dirty, and `m_Buffer.resize(width*height*4)` yields a
zero-filled buffer of that size. -/
def mkRenderStore (w h : Nat) : RenderStore :=
  { buffer := List.replicate (w * h * 4) 0
    width := w
    height := h
    isDirty := false }

/-- `std::vector::resize(n)` semantics on a byte list: keep the first `n`
bytes, pad with zero bytes if the list was shorter. -/
def resizeList (l : List Nat) (n : Nat) : List Nat :=
  l.take n ++ List.replicate (n - l.length) 0

/-- `memcpy(dst.data(), src, n)` semantics on byte lists: the first `n`
bytes of `src` overwrite the first `n` bytes of `dst`; the rest of `dst`
is untouched. -/
def memcpyList (dst src : List Nat) (n : Nat) : List Nat :=
  src.take n ++ dst.drop n

/-- `CefRenderHandlerImpl::OnPaint`: if the incoming dimensions differ from
the stored ones, store them and resize the buffer to `width*height*4`;
then copy the whole incoming BGRA buffer and set the dirty flag. -/
def OnPaint (s : RenderStore) (input : List Nat) (w h : Nat) : RenderStore :=
  let buf := if w ≠ s.width ∨ h ≠ s.height then resizeList s.buffer (w * h * 4) else s.buffer
  { buffer := memcpyList buf input (w * h * 4)
    width := w
    height := h
    isDirty := true }

/-- BGRA to RGBA conversion loop of `GetTextureData`: for each 4-byte
group, bytes 0 and 2 are swapped and bytes 1 and 3 are kept.  A trailing
group of fewer than 4 bytes never occurs on reachable buffers (their
length is a multiple of 4) and is left unchanged. -/
def bgraToRgba : List Nat → List Nat
  | b :: g :: r :: a :: rest => r :: g :: b :: a :: bgraToRgba rest
  | l => l

/-- The out-parameters of `GetTextureData`. -/
structure TexData where
  data : List Nat
  width : Nat
  height : Nat
  deriving DecidableEq

/-- `CefRenderHandlerImpl::GetTextureData`: writes the stored dimensions
and the converted copy of the stored buffer to the out-parameters.  The
function body assigns no member field, so the returned store state is the
input state reassembled field by field. -/
def GetTextureData (s : RenderStore) : RenderStore × TexData :=
  ({ buffer := s.buffer, width := s.width, height := s.height, isDirty := s.isDirty },
   { data := bgraToRgba s.buffer, width := s.width, height := s.height })

/-- `CefRenderHandlerImpl::IsDirty`. -/
def IsDirty (s : RenderStore) : Bool := s.isDirty

/-- `CefRenderHandlerImpl::ClearDirty`. -/
def ClearDirty (s : RenderStore) : RenderStore :=
  { s with isDirty := false }

/-- `CefRenderHandlerImpl::Resize`: store the new dimensions and resize the
buffer to `width*height*4`. -/
def Resize (s : RenderStore) (w h : Nat) : RenderStore :=
  { s with width := w, height := h, buffer := resizeList s.buffer (w * h * 4) }

/-- A `CefRect` as produced by `GetViewRect`. -/
structure CefRect where
  x : Nat
  y : Nat
  width : Nat
  height : Nat
  deriving DecidableEq

/-- `CefRenderHandlerImpl::GetViewRect`: writes `CefRect(0, 0, m_Width,
m_Height)` to the out-parameter. -/
def GetViewRect (s : RenderStore) : CefRect :=
  { x := 0, y := 0, width := s.width, height := s.height }

/-- The index a byte of the converted buffer is read from in the source
buffer: within each 4-byte group, positions 0 and 2 trade places. -/
def swapIdx (k : Nat) : Nat :=
  if k % 4 = 0 then k + 2 else if k % 4 = 2 then k - 2 else k

/-- Well-formedness of a store state: the backing buffer holds exactly
`width*height*4` bytes, as the constructor establishes and every resize
re-establishes. -/
def WF (s : RenderStore) : Prop :=
  s.buffer.length = s.width * s.height * 4

theorem resizeList_length (l : List Nat) (n : Nat) : (resizeList l n).length = n := by
  simp only [resizeList, List.length_append, List.length_take, List.length_replicate]
  omega

theorem bgraToRgba_length (l : List Nat) : (bgraToRgba l).length = l.length := by
  suffices h : ∀ n (l : List Nat), l.length ≤ n → (bgraToRgba l).length = l.length from
    h l.length l le_rfl
  intro n
  induction n with
  | zero =>
    intro l hl
    have : l = [] := List.eq_nil_of_length_eq_zero (Nat.le_zero.mp hl)
    subst this
    rfl
  | succ n ih =>
    intro l hl
    match l with
    | [] => rfl
    | [b] => rfl
    | [b, g] => rfl
    | [b, g, r] => rfl
    | b :: g :: r :: a :: rest =>
      have hrest : rest.length ≤ n := by
        simp only [List.length_cons] at hl
        omega
      simp only [bgraToRgba, List.length_cons, ih rest hrest]

theorem bgraToRgba_getElem? (l : List Nat) (hl : l.length % 4 = 0) (k : Nat) :
    (bgraToRgba l)[k]? = l[swapIdx k]? := by
  suffices h : ∀ n (l : List Nat), l.length ≤ n → l.length % 4 = 0 →
      ∀ k, (bgraToRgba l)[k]? = l[swapIdx k]? from
    h l.length l le_rfl hl k
  intro n
  induction n with
  | zero =>
    intro l hl _ k
    have : l = [] := List.eq_nil_of_length_eq_zero (Nat.le_zero.mp hl)
    subst this
    simp [bgraToRgba, swapIdx]
  | succ n ih =>
    intro l hl h4 k
    match l with
    | [] => simp [bgraToRgba, swapIdx]
    | [b] =>
      simp only [List.length_cons, List.length_nil] at h4
      omega
    | [b, g] =>
      simp only [List.length_cons, List.length_nil] at h4
      omega
    | [b, g, r] =>
      simp only [List.length_cons, List.length_nil] at h4
      omega
    | b :: g :: r :: a :: rest =>
      have hrest : rest.length ≤ n := by
        simp only [List.length_cons] at hl
        omega
      have hrest4 : rest.length % 4 = 0 := by
        simp only [List.length_cons] at h4
        omega
      rcases k with _ | _ | _ | _ | k
      · simp [bgraToRgba, swapIdx]
      · simp [bgraToRgba, swapIdx]
      · simp [bgraToRgba, swapIdx]
      · simp [bgraToRgba, swapIdx]
      · show (bgraToRgba (b :: g :: r :: a :: rest))[k + 4]? =
          (b :: g :: r :: a :: rest)[swapIdx (k + 4)]?
        have hswap : swapIdx (k + 4) = swapIdx k + 4 := by
          unfold swapIdx
          split_ifs <;> omega
        rw [hswap]
        have h4eq : k + 4 = k + 1 + 1 + 1 + 1 := rfl
        have hseq : swapIdx k + 4 = swapIdx k + 1 + 1 + 1 + 1 := rfl
        rw [h4eq, hseq]
        simp only [bgraToRgba, List.getElem?_cons_succ]
        exact ih rest hrest hrest4 k

theorem swapIdx_of_mod_one_or_three (k : Nat) (h : k % 4 = 1 ∨ k % 4 = 3) :
    swapIdx k = k := by
  unfold swapIdx
  split_ifs <;> omega

theorem swapIdx_of_mod_zero (k : Nat) (h : k % 4 = 0) : swapIdx k = k + 2 := by
  unfold swapIdx
  split_ifs <;> omega

theorem swapIdx_of_mod_two (k : Nat) (h : k % 4 = 2) : swapIdx k = k - 2 := by
  unfold swapIdx
  split_ifs <;> omega

theorem OnPaint_buffer_of_ne (s : RenderStore) (input : List Nat) (w h : Nat)
    (hc : w ≠ s.width ∨ h ≠ s.height) (hlen : w * h * 4 ≤ input.length) :
    (OnPaint s input w h).buffer = input.take (w * h * 4) := by
  unfold OnPaint memcpyList
  simp only [if_pos hc]
  rw [List.drop_eq_nil_of_le (le_of_eq (resizeList_length s.buffer (w * h * 4))),
    List.append_nil]

theorem OnPaint_buffer_of_wf (s : RenderStore) (input : List Nat) (w h : Nat)
    (hwf : WF s) (hlen : input.length = w * h * 4) :
    (OnPaint s input w h).buffer = input := by
  unfold OnPaint memcpyList
  by_cases hc : w ≠ s.width ∨ h ≠ s.height
  · simp only [if_pos hc]
    rw [List.drop_eq_nil_of_le (le_of_eq (resizeList_length s.buffer (w * h * 4))),
      List.append_nil, ← hlen, List.take_length]
  · simp only [if_neg hc]
    push_neg at hc
    have hb : s.buffer.length = w * h * 4 := by
      rw [hwf, ← hc.1, ← hc.2]
    rw [List.drop_eq_nil_of_le (le_of_eq hb), List.append_nil, ← hlen, List.take_length]

theorem OnPaint_buffer_length (s : RenderStore) (input : List Nat) (w h : Nat)
    (hwf : WF s) (hlen : w * h * 4 ≤ input.length) :
    (OnPaint s input w h).buffer.length = w * h * 4 := by
  unfold OnPaint memcpyList
  by_cases hc : w ≠ s.width ∨ h ≠ s.height
  · simp only [if_pos hc, List.length_append, List.length_take, List.length_drop,
      resizeList_length]
    omega
  · push_neg at hc
    have hb : s.buffer.length = w * h * 4 := by
      rw [hwf, ← hc.1, ← hc.2]
    simp only [if_neg (by push_neg; exact hc : ¬(w ≠ s.width ∨ h ≠ s.height)),
      List.length_append, List.length_take, List.length_drop, hb]
    omega

/-- C1: for every positive width and height and every BGRA input buffer of
`width*height*4` bytes, `OnPaint` followed by `GetTextureData` yields a
buffer of exactly `width*height*4` bytes together with those dimensions, in
which bytes at index 1 and 3 mod 4 are unchanged and the bytes at index 0
and 2 mod 4 of each 4-byte pixel are swapped; in particular the 2x1 frame
`[10,20,30,40, 50,60,70,80]` converts to `[30,20,10,40, 70,60,50,80]`. -/
theorem onPaint_getTextureData_roundtrip (s : RenderStore) (input : List Nat)
    (w h : Nat) (hw : 0 < w) (hh : 0 < h) (hwf : WF s)
    (hlen : input.length = w * h * 4) :
    (GetTextureData (OnPaint s input w h)).2.data.length = w * h * 4 ∧
    (GetTextureData (OnPaint s input w h)).2.width = w ∧
    (GetTextureData (OnPaint s input w h)).2.height = h ∧
    (∀ k, k % 4 = 1 ∨ k % 4 = 3 →
      (GetTextureData (OnPaint s input w h)).2.data[k]? = input[k]?) ∧
    (∀ k, k % 4 = 0 →
      (GetTextureData (OnPaint s input w h)).2.data[k]? = input[k + 2]?) ∧
    (∀ k, k % 4 = 2 →
      (GetTextureData (OnPaint s input w h)).2.data[k]? = input[k - 2]?) ∧
    (GetTextureData (OnPaint (mkRenderStore 2 1)
      [10, 20, 30, 40, 50, 60, 70, 80] 2 1)).2.data
      = [30, 20, 10, 40, 70, 60, 50, 80] := by
  have hbuf : (OnPaint s input w h).buffer = input :=
    OnPaint_buffer_of_wf s input w h hwf hlen
  have hmod : input.length % 4 = 0 := by
    rw [hlen]
    exact Nat.mul_mod_left (w * h) 4
  refine ⟨?_, rfl, rfl, ?_, ?_, ?_, by decide⟩
  · show (bgraToRgba (OnPaint s input w h).buffer).length = w * h * 4
    rw [hbuf, bgraToRgba_length, hlen]
  · intro k hk
    show (bgraToRgba (OnPaint s input w h).buffer)[k]? = input[k]?
    rw [hbuf, bgraToRgba_getElem? input hmod k, swapIdx_of_mod_one_or_three k hk]
  · intro k hk
    show (bgraToRgba (OnPaint s input w h).buffer)[k]? = input[k + 2]?
    rw [hbuf, bgraToRgba_getElem? input hmod k, swapIdx_of_mod_zero k hk]
  · intro k hk
    show (bgraToRgba (OnPaint s input w h).buffer)[k]? = input[k - 2]?
    rw [hbuf, bgraToRgba_getElem? input hmod k, swapIdx_of_mod_two k hk]

/-- Witness for C1: the round-trip theorem instantiated on the spec's 2x1
synthetic frame. -/
theorem onPaint_getTextureData_roundtrip_witness :
    (GetTextureData (OnPaint (mkRenderStore 2 1)
      [10, 20, 30, 40, 50, 60, 70, 80] 2 1)).2.data.length = 2 * 1 * 4 :=
  (onPaint_getTextureData_roundtrip (mkRenderStore 2 1)
    [10, 20, 30, 40, 50, 60, 70, 80] 2 1
    (by decide) (by decide) rfl rfl).1

/-- C4: after a second `OnPaint` whose width or height differs from the
first one's, `GetTextureData` returns a buffer of exactly
`newWidth*newHeight*4` bytes together with the new dimensions. -/
theorem onPaint_dimension_change_resizes (s : RenderStore) (i1 i2 : List Nat)
    (w1 h1 w2 h2 : Nat) (hne : w2 ≠ w1 ∨ h2 ≠ h1)
    (hlen2 : i2.length = w2 * h2 * 4) :
    (GetTextureData (OnPaint (OnPaint s i1 w1 h1) i2 w2 h2)).2.data.length
      = w2 * h2 * 4 ∧
    (GetTextureData (OnPaint (OnPaint s i1 w1 h1) i2 w2 h2)).2.width = w2 ∧
    (GetTextureData (OnPaint (OnPaint s i1 w1 h1) i2 w2 h2)).2.height = h2 := by
  have hdim : w2 ≠ (OnPaint s i1 w1 h1).width ∨ h2 ≠ (OnPaint s i1 w1 h1).height := by
    simpa [OnPaint] using hne
  have hbuf : (OnPaint (OnPaint s i1 w1 h1) i2 w2 h2).buffer = i2.take (w2 * h2 * 4) :=
    OnPaint_buffer_of_ne (OnPaint s i1 w1 h1) i2 w2 h2 hdim (le_of_eq hlen2.symm)
  refine ⟨?_, rfl, rfl⟩
  show (bgraToRgba (OnPaint (OnPaint s i1 w1 h1) i2 w2 h2).buffer).length = w2 * h2 * 4
  rw [hbuf, bgraToRgba_length, List.length_take, hlen2]
  omega

/-- Witness for C4: a 1x1 frame followed by a 2x1 frame yields an 8-byte
converted buffer with the new dimensions. -/
theorem onPaint_dimension_change_resizes_witness :
    (GetTextureData (OnPaint (OnPaint (mkRenderStore 1 1) [1, 2, 3, 4] 1 1)
      [10, 20, 30, 40, 50, 60, 70, 80] 2 1)).2.data.length = 2 * 1 * 4 :=
  (onPaint_dimension_change_resizes (mkRenderStore 1 1) [1, 2, 3, 4]
    [10, 20, 30, 40, 50, 60, 70, 80] 1 1 2 1 (Or.inl (by decide)) rfl).1

/-- C8: `GetViewRect` always yields the rectangle `(0, 0, width, height)`
built from the store's current dimensions; in particular it yields
`(0, 0, w, h)` right after construction with `(w, h)` and right after
`Resize(w, h)`. -/
theorem getViewRect_origin_and_dims :
    (∀ s : RenderStore, GetViewRect s
      = { x := 0, y := 0, width := s.width, height := s.height }) ∧
    (∀ w h, GetViewRect (mkRenderStore w h)
      = { x := 0, y := 0, width := w, height := h }) ∧
    (∀ (s : RenderStore) (w h : Nat), GetViewRect (Resize s w h)
      = { x := 0, y := 0, width := w, height := h }) :=
  ⟨fun _ => rfl, fun _ _ => rfl, fun _ _ _ => rfl⟩

/-- C9: the constructor establishes and `OnPaint` (fed a full frame) and
`Resize` preserve the invariant that the buffer length is
`width*height*4`; consequently `GetTextureData` on a well-formed store
returns a buffer whose length is the returned width times the returned
height times 4. -/
theorem buffer_length_invariant :
    (∀ w h, WF (mkRenderStore w h)) ∧
    (∀ (s : RenderStore) (input : List Nat) (w h : Nat),
      WF s → w * h * 4 ≤ input.length → WF (OnPaint s input w h)) ∧
    (∀ (s : RenderStore) (w h : Nat), WF s → WF (Resize s w h)) ∧
    (∀ s : RenderStore, WF s → (GetTextureData s).2.data.length
      = (GetTextureData s).2.width * (GetTextureData s).2.height * 4) := by
  refine ⟨?_, ?_, ?_, ?_⟩
  · intro w h
    show (List.replicate (w * h * 4) 0).length = w * h * 4
    rw [List.length_replicate]
  · intro s input w h hwf hle
    show (OnPaint s input w h).buffer.length = w * h * 4
    exact OnPaint_buffer_length s input w h hwf hle
  · intro s w h _
    show (resizeList s.buffer (w * h * 4)).length = w * h * 4
    exact resizeList_length s.buffer (w * h * 4)
  · intro s hwf
    show (bgraToRgba s.buffer).length = s.width * s.height * 4
    rw [bgraToRgba_length]
    exact hwf

/-- Witness for C9: the invariant checked concretely across a paint and a
resize on a 1x1 store. -/
theorem buffer_length_invariant_witness :
    WF (OnPaint (mkRenderStore 1 1) [9, 9, 9, 9] 1 1) ∧
    WF (Resize (mkRenderStore 1 1) 2 3) ∧
    (GetTextureData (mkRenderStore 2 2)).2.data.length
      = (GetTextureData (mkRenderStore 2 2)).2.width
        * (GetTextureData (mkRenderStore 2 2)).2.height * 4 :=
  ⟨buffer_length_invariant.2.1 (mkRenderStore 1 1) [9, 9, 9, 9] 1 1 rfl (by decide),
   buffer_length_invariant.2.2.1 (mkRenderStore 1 1) 2 3 rfl,
   buffer_length_invariant.2.2.2 (mkRenderStore 2 2) rfl⟩

/-- C10: `GetTextureData` is a pure observer: the store state it hands
back is the state it was given — buffer, width, height and dirty flag are
all unchanged; only the out-parameters receive values. -/
theorem getTextureData_pure_observer (s : RenderStore) :
    (GetTextureData s).1 = s ∧
    (GetTextureData s).1.buffer = s.buffer ∧
    (GetTextureData s).1.width = s.width ∧
    (GetTextureData s).1.height = s.height ∧
    (GetTextureData s).1.isDirty = s.isDirty := by
  cases s
  exact ⟨rfl, rfl, rfl, rfl, rfl⟩

/-- An operation on the frame buffer store, as the rest of the program can
invoke it. -/
inductive StoreOp where
  | onPaint (input : List Nat) (w h : Nat)
  | getTextureData
  | clearDirty
  | resize (w h : Nat)

/-- The store state after one operation (`GetTextureData` contributes the
state component of its embedding). -/
def applyOp (s : RenderStore) : StoreOp → RenderStore
  | .onPaint input w h => OnPaint s input w h
  | .getTextureData => (GetTextureData s).1
  | .clearDirty => ClearDirty s
  | .resize w h => Resize s w h

/-- The store state after a sequence of operations. -/
def runOps (s : RenderStore) (ops : List StoreOp) : RenderStore :=
  ops.foldl applyOp s

/-- C5: in every operation sequence, the dirty flag reads true immediately
after an `OnPaint`, false immediately after a `ClearDirty`, and
`GetTextureData` leaves it exactly as it was. -/
theorem dirty_flag_protocol (s : RenderStore) (ops : List StoreOp)
    (input : List Nat) (w h : Nat) :
    (runOps s (ops ++ [StoreOp.onPaint input w h])).isDirty = true ∧
    (runOps s (ops ++ [StoreOp.clearDirty])).isDirty = false ∧
    (runOps s (ops ++ [StoreOp.getTextureData])).isDirty = (runOps s ops).isDirty := by
  simp [runOps, List.foldl_append, applyOp, OnPaint, ClearDirty, GetTextureData]

/-- A lifecycle notification delivered to `CefClientImpl`. -/
inductive LifeEvent where
  | onAfterCreated (handle : Nat)
  | onBeforeClose
  deriving DecidableEq

/-- Effect of one lifecycle notification on the stored `m_Browser` handle:
`OnAfterCreated` stores the handle, `OnBeforeClose` clears it. -/
def lifeStep (b : Option Nat) : LifeEvent → Option Nat
  | .onAfterCreated h => some h
  | .onBeforeClose => none

/-- `CefClientImpl::GetBrowser` after a sequence of lifecycle
notifications, starting from the fresh client whose handle is empty. -/
def runLife (es : List LifeEvent) : Option Nat :=
  es.foldl lifeStep none

/-- Whether a lifecycle notification is a creation notification. -/
def isCreation : LifeEvent → Bool
  | .onAfterCreated _ => true
  | .onBeforeClose => false

theorem runLife_no_creation (es : List LifeEvent)
    (h : ∀ e ∈ es, isCreation e = false) : runLife es = none := by
  induction es with
  | nil => rfl
  | cons e rest ih =>
    match e with
    | .onAfterCreated hd =>
      exact absurd (h _ (List.mem_cons_self _ _)) (by simp [isCreation])
    | .onBeforeClose =>
      show List.foldl lifeStep (lifeStep none .onBeforeClose) rest = none
      exact ih fun e he => h e (List.mem_cons_of_mem _ he)

/-- C6: the browser handle is empty on the fresh client and after any
trace without a creation notification, empty immediately after any
`OnBeforeClose`, and equal to the handle passed to the latest
`OnAfterCreated` immediately after it (and hence until the next
notification arrives). -/
theorem browser_handle_lifecycle :
    runLife [] = none ∧
    (∀ es, (∀ e ∈ es, isCreation e = false) → runLife es = none) ∧
    (∀ es, runLife (es ++ [LifeEvent.onBeforeClose]) = none) ∧
    (∀ es h, runLife (es ++ [LifeEvent.onAfterCreated h]) = some h) := by
  refine ⟨rfl, runLife_no_creation, ?_, ?_⟩
  · intro es
    rw [runLife, List.foldl_append]
    rfl
  · intro es h
    rw [runLife, List.foldl_append]
    rfl

/-- Witness for C6: the handle accessor evaluated across a concrete
create-close-create trace. -/
theorem browser_handle_lifecycle_witness :
    runLife [LifeEvent.onBeforeClose] = none ∧
    runLife [LifeEvent.onAfterCreated 3, LifeEvent.onBeforeClose] = none ∧
    runLife [LifeEvent.onBeforeClose, LifeEvent.onAfterCreated 7] = some 7 :=
  ⟨browser_handle_lifecycle.2.1 [LifeEvent.onBeforeClose]
      (by intro e he; simp at he; rw [he]; rfl),
   browser_handle_lifecycle.2.2.1 [LifeEvent.onAfterCreated 3],
   browser_handle_lifecycle.2.2.2 [LifeEvent.onBeforeClose] 7⟩

/-- A GPU call performed by the application around the CEF texture, in
program order.  `deviceWaitIdle` is `vkDeviceWaitIdle`, which the program
issues in `Application::Cleanup` but may or may not issue elsewhere. -/
inductive GpuEvent where
  | destroyImageView (v : Nat)
  | destroyImage (i : Nat)
  | destroySampler
  | deviceWaitIdle
  | createImage (w h : Nat) (ok : Bool)
  | createImageView (ok : Bool)
  | createSampler
  | addTexture
  | updateTextureImage (w h : Nat)
  deriving DecidableEq

/-- Texture bridge state: the `Application` members `m_CefTextureImage`,
`m_CefTextureView`, `m_CefTextureSampler`, `m_BrowserWidth`,
`m_BrowserHeight`.  Handles are numbered; `none` is `VK_NULL_HANDLE`.
`recreations` and `inPlaceUpdates` are the spec's observable counters for
how often each path of `UpdateCefTexture` ran; `nextId` numbers freshly
created GPU handles. -/
structure BridgeState where
  cefTextureImage : Option Nat
  cefTextureView : Option Nat
  samplerCreated : Bool
  browserW : Nat
  browserH : Nat
  recreations : Nat
  inPlaceUpdates : Nat
  nextId : Nat
  deriving DecidableEq

/-- Bridge state at application start: all handles are `VK_NULL_HANDLE`
and the browser dimensions are the initializers of `m_BrowserWidth` and
`m_BrowserHeight`. -/
def initBridge (w h : Nat) : BridgeState :=
  { cefTextureImage := none
    cefTextureView := none
    samplerCreated := false
    browserW := w
    browserH := h
    recreations := 0
    inPlaceUpdates := 0
    nextId := 0 }

/-- The combined state `UpdateCefTexture` reads and writes: the render
handler's store and the application's texture bridge. -/
structure AppState where
  store : RenderStore
  bridge : BridgeState
  deriving DecidableEq

/-- The destroy calls of `UpdateCefTexture`'s recreation path: destroy the
old view if it is non-null, then the old image (with its memory) if it is
non-null. -/
def destroyOldEvents (b : BridgeState) : List GpuEvent :=
  (match b.cefTextureView with
    | some v => [GpuEvent.destroyImageView v]
    | none => []) ++
  (match b.cefTextureImage with
    | some i => [GpuEvent.destroyImage i]
    | none => [])

/-- The bridge state produced by `UpdateCefTexture`'s recreation path:
new dimensions stored, a fresh image and view on success and null handles
on failure, the sampler created on first use, and the recreation counter
bumped. -/
def recreateBridge (b : BridgeState) (w h : Nat) (imgOk viewOk : Bool) : BridgeState :=
  { cefTextureImage := if imgOk then some b.nextId else none
    cefTextureView := if viewOk then some (b.nextId + 1) else none
    samplerCreated := true
    browserW := w
    browserH := h
    recreations := b.recreations + 1
    inPlaceUpdates := b.inPlaceUpdates
    nextId := b.nextId + 2 }

/-- The GPU calls of `UpdateCefTexture`'s recreation path in program
order: destroy old view and image, create the new image, create the new
view, create the sampler if this is the first texture, rebind the ImGui
descriptor.  No wait call appears anywhere in the path. -/
def recreateEvents (b : BridgeState) (w h : Nat) (imgOk viewOk : Bool) : List GpuEvent :=
  destroyOldEvents b ++
  [GpuEvent.createImage w h imgOk, GpuEvent.createImageView viewOk] ++
  (if b.samplerCreated then [] else [GpuEvent.createSampler]) ++
  [GpuEvent.addTexture]

/-- `Application::UpdateCefTexture`: early-return when the store is not
dirty; otherwise read the converted frame, recreate the texture when no
image exists or the dimensions changed, else update it in place; clear the
dirty flag at the end.  `imgOk` and `viewOk` are the outcomes of
`CreateTextureImage` and `CreateImageView`, which return `VK_NULL_HANDLE`
on failure; the second component lists the GPU calls in program order. -/
def UpdateCefTexture (app : AppState) (imgOk viewOk : Bool) : AppState × List GpuEvent :=
  if IsDirty app.store = false then (app, [])
  else
    let w := (GetTextureData app.store).2.width
    let h := (GetTextureData app.store).2.height
    if app.bridge.cefTextureImage = none ∨ w ≠ app.bridge.browserW
        ∨ h ≠ app.bridge.browserH then
      ({ store := ClearDirty (GetTextureData app.store).1
         bridge := recreateBridge app.bridge w h imgOk viewOk },
       recreateEvents app.bridge w h imgOk viewOk)
    else
      ({ store := ClearDirty (GetTextureData app.store).1
         bridge := { app.bridge with inPlaceUpdates := app.bridge.inPlaceUpdates + 1 } },
       [GpuEvent.updateTextureImage w h])

/-- `Application::Cleanup`'s GPU teardown: a full device-idle wait, then
destruction of sampler, view and image as present.  This is the only place
the program issues `vkDeviceWaitIdle` around the CEF texture. -/
def CleanupEvents (b : BridgeState) : List GpuEvent :=
  [GpuEvent.deviceWaitIdle] ++
  (if b.samplerCreated then [GpuEvent.destroySampler] else []) ++
  (match b.cefTextureView with
    | some v => [GpuEvent.destroyImageView v]
    | none => []) ++
  (match b.cefTextureImage with
    | some i => [GpuEvent.destroyImage i]
    | none => [])

/-- The application state after the spec's two-frame scenario: fresh
application, a 100x100 frame painted and synced, then a 200x150 frame
painted and synced, with all GPU creation succeeding. -/
def syncTwice (i1 i2 : List Nat) : AppState :=
  (UpdateCefTexture
    { store := OnPaint
        ((UpdateCefTexture
          { store := OnPaint (mkRenderStore 800 600) i1 100 100
            bridge := initBridge 800 600 } true true).1.store) i2 200 150
      bridge := (UpdateCefTexture
        { store := OnPaint (mkRenderStore 800 600) i1 100 100
          bridge := initBridge 800 600 } true true).1.bridge } true true).1

/-- C3: a Sync seeing a pending frame whose dimensions equal those of the
existing texture takes the in-place path and never recreates; a Sync
seeing a pending frame with no existing texture or a changed dimension
recreates exactly once and takes no in-place update; and the fresh
application synced with a 100x100 frame and then a 200x150 frame performs
exactly two recreations and zero in-place updates. -/
theorem sync_recreation_policy :
    (∀ (app : AppState) (imgOk viewOk : Bool) (i : Nat),
      IsDirty app.store = true →
      app.bridge.cefTextureImage = some i →
      app.store.width = app.bridge.browserW →
      app.store.height = app.bridge.browserH →
      (UpdateCefTexture app imgOk viewOk).1.bridge.recreations
        = app.bridge.recreations ∧
      (UpdateCefTexture app imgOk viewOk).1.bridge.inPlaceUpdates
        = app.bridge.inPlaceUpdates + 1) ∧
    (∀ (app : AppState) (imgOk viewOk : Bool),
      IsDirty app.store = true →
      (app.bridge.cefTextureImage = none ∨ app.store.width ≠ app.bridge.browserW
        ∨ app.store.height ≠ app.bridge.browserH) →
      (UpdateCefTexture app imgOk viewOk).1.bridge.recreations
        = app.bridge.recreations + 1 ∧
      (UpdateCefTexture app imgOk viewOk).1.bridge.inPlaceUpdates
        = app.bridge.inPlaceUpdates) ∧
    (∀ i1 i2 : List Nat,
      (syncTwice i1 i2).bridge.recreations = 2 ∧
      (syncTwice i1 i2).bridge.inPlaceUpdates = 0) := by
  refine ⟨?_, ?_, ?_⟩
  · intro app imgOk viewOk i hd himg hw hh
    simp only [IsDirty] at hd
    constructor <;>
      simp [UpdateCefTexture, GetTextureData, IsDirty, hd, himg, hw, hh]
  · intro app imgOk viewOk hd hcond
    simp only [IsDirty] at hd
    rcases hcond with himg | hwne | hhne
    · constructor <;>
        simp [UpdateCefTexture, GetTextureData, IsDirty, hd, himg, recreateBridge]
    · constructor <;>
        simp [UpdateCefTexture, GetTextureData, IsDirty, hd, hwne, recreateBridge]
    · constructor <;>
        simp [UpdateCefTexture, GetTextureData, IsDirty, hd, hhne, recreateBridge]
  · intro i1 i2
    exact ⟨rfl, rfl⟩

/-- A dirty application state whose pending 1x1 frame matches the live
1x1 texture (image handle 0, view handle 1): Sync must take the in-place
path. -/
def liveTexApp : AppState where
  store := { buffer := [1, 2, 3, 4], width := 1, height := 1, isDirty := true }
  bridge :=
    { cefTextureImage := some 0
      cefTextureView := some 1
      samplerCreated := true
      browserW := 1
      browserH := 1
      recreations := 1
      inPlaceUpdates := 0
      nextId := 2 }

/-- A fresh application whose store already holds a dirty 1x1 frame: no
texture exists yet, so Sync must recreate. -/
def freshDirtyApp : AppState where
  store := { buffer := [1, 2, 3, 4], width := 1, height := 1, isDirty := true }
  bridge := initBridge 1 1

/-- A dirty application state holding a live 1x1 texture (image handle 0,
view handle 1) while the store holds a pending 2x1 frame: the next Sync
must take the recreation path. -/
def failingSyncApp : AppState where
  store :=
    { buffer := [1, 2, 3, 4, 5, 6, 7, 8], width := 2, height := 1, isDirty := true }
  bridge :=
    { cefTextureImage := some 0
      cefTextureView := some 1
      samplerCreated := true
      browserW := 1
      browserH := 1
      recreations := 1
      inPlaceUpdates := 0
      nextId := 2 }

/-- Witness for C3: the in-place path and the recreation path of the
policy theorem, each evaluated at a concrete dirty application state. -/
theorem sync_recreation_policy_witness :
    (UpdateCefTexture liveTexApp true true).1.bridge.inPlaceUpdates = 1 ∧
    (UpdateCefTexture freshDirtyApp true true).1.bridge.recreations = 1 :=
  ⟨(sync_recreation_policy.1 liveTexApp true true 0 rfl rfl rfl rfl).2,
   (sync_recreation_policy.2.1 freshDirtyApp true true rfl (Or.inl rfl)).1⟩

/-- Counterexample to C2: when image and view creation fail during the
recreation path of Sync, the previous texture state is not left in place:
the stored image handle is no longer the old one (it is null), the view is
null, and the previously live image 0 and view 1 were destroyed by the
call. -/
theorem sync_failure_counterexample :
    (UpdateCefTexture failingSyncApp false false).1.bridge.cefTextureImage ≠ some 0 ∧
    (UpdateCefTexture failingSyncApp false false).1.bridge.cefTextureImage = none ∧
    (UpdateCefTexture failingSyncApp false false).1.bridge.cefTextureView = none ∧
    GpuEvent.destroyImage 0 ∈ (UpdateCefTexture failingSyncApp false false).2 ∧
    GpuEvent.destroyImageView 1 ∈ (UpdateCefTexture failingSyncApp false false).2 := by
  decide

/-- C2 as amended: in the recreation path the old image and view are
destroyed before creation is attempted, so when creation fails the bridge
is left holding null handles, the old resources are already gone, and the
call still clears the dirty flag and returns (the frame loop itself
continues; nothing restores or preserves the previous texture state). -/
theorem sync_failure_behavior (app : AppState) (imgOk viewOk : Bool) (i v : Nat)
    (hd : IsDirty app.store = true)
    (himg : app.bridge.cefTextureImage = some i)
    (hview : app.bridge.cefTextureView = some v)
    (hdim : app.store.width ≠ app.bridge.browserW
      ∨ app.store.height ≠ app.bridge.browserH) :
    (imgOk = false →
      (UpdateCefTexture app imgOk viewOk).1.bridge.cefTextureImage = none) ∧
    (viewOk = false →
      (UpdateCefTexture app imgOk viewOk).1.bridge.cefTextureView = none) ∧
    GpuEvent.destroyImage i ∈ (UpdateCefTexture app imgOk viewOk).2 ∧
    GpuEvent.destroyImageView v ∈ (UpdateCefTexture app imgOk viewOk).2 ∧
    (UpdateCefTexture app imgOk viewOk).1.store.isDirty = false := by
  simp only [IsDirty] at hd
  have hEq : UpdateCefTexture app imgOk viewOk =
      ({ store := ClearDirty (GetTextureData app.store).1
         bridge := recreateBridge app.bridge app.store.width app.store.height
           imgOk viewOk },
       recreateEvents app.bridge app.store.width app.store.height imgOk viewOk) := by
    rcases hdim with hne | hne <;>
      simp [UpdateCefTexture, GetTextureData, IsDirty, hd, hne]
  refine ⟨fun hio => ?_, fun hvo => ?_, ?_, ?_, ?_⟩
  · rw [hEq]
    simp [recreateBridge, hio]
  · rw [hEq]
    simp [recreateBridge, hvo]
  · rw [hEq]
    simp [recreateEvents, destroyOldEvents, himg, hview]
  · rw [hEq]
    simp [recreateEvents, destroyOldEvents, himg, hview]
  · rw [hEq]
    simp [ClearDirty, GetTextureData]

/-- Witness for the amended C2: the failure behaviour evaluated on the
concrete dirty state with a live texture and both creations failing. -/
theorem sync_failure_behavior_witness :
    (UpdateCefTexture failingSyncApp false false).1.bridge.cefTextureView = none ∧
    GpuEvent.destroyImage 0 ∈ (UpdateCefTexture failingSyncApp false false).2 :=
  ⟨(sync_failure_behavior failingSyncApp false false 0 1 rfl rfl rfl
      (Or.inl (by decide))).2.1 rfl,
   (sync_failure_behavior failingSyncApp false false 0 1 rfl rfl rfl
      (Or.inl (by decide))).2.2.1⟩

theorem updateCefTexture_never_waits (app : AppState) (imgOk viewOk : Bool) :
    GpuEvent.deviceWaitIdle ∉ (UpdateCefTexture app imgOk viewOk).2 := by
  rcases hv : app.bridge.cefTextureView with _ | v <;>
    rcases hi : app.bridge.cefTextureImage with _ | i <;>
      simp only [UpdateCefTexture, recreateEvents, destroyOldEvents, hv, hi] <;>
        split_ifs <;> simp

/-- C7 fails on the code: the recreation path of `UpdateCefTexture`
destroys the previously live view 1 and image 0 while issuing no
device-idle wait at all; the only `vkDeviceWaitIdle` around the CEF
texture is the one `Application::Cleanup` performs. -/
theorem sync_recreation_destroys_without_wait :
    GpuEvent.destroyImageView 1 ∈ (UpdateCefTexture failingSyncApp true true).2 ∧
    GpuEvent.destroyImage 0 ∈ (UpdateCefTexture failingSyncApp true true).2 ∧
    GpuEvent.deviceWaitIdle ∉ (UpdateCefTexture failingSyncApp true true).2 ∧
    GpuEvent.deviceWaitIdle ∈ CleanupEvents failingSyncApp.bridge := by
  decide
